import Mathlib

/-!
Verification of the echopype model-dispatch, mode-validation and AZFP
calibration code.

The Python sources are embedded shallowly:

* machine floats become exact arithmetic (rationals where only field
  operations occur, reals where logarithms occur);
* Python functions that can raise become functions into Except PyErr;
* Python calling conventions are kept: a function defined with k
  positional parameters is modelled on an argument list, and a call that
  binds the wrong number of arguments yields a TypeError, exactly as the
  interpreter does at call time;
* reading a local variable before its first assignment yields
  UnboundLocalError;
* the SONAR_MODELS registry dict is embedded as an association list that
  keeps exactly the keys present in the source literal.
-/

/-- Python values relevant to the mode checks: None or a string. -/
inductive PyVal
  | none
  | str (s : String)
deriving DecidableEq

/-- Python exceptions raised by the embedded code. -/
inductive PyErr
  | typeError (fn : String)
  | valueError (msg : String)
  | unboundLocalError (name : String)
  | keyError (key : String)
deriving DecidableEq

/-- Association-list lookup, as a Python dict indexing that may fail. -/
def plookup {α : Type} : List (String × α) → String → Option α
  | [], _ => Option.none
  | (k, v) :: rest, key => if k = key then Option.some v else plookup rest key

/-- Shape matched by the regex in validate_azfp_ext: a dot, two digits
(ASCII, as the claim reads the pattern), one ASCII letter. -/
def azfpExtPattern : List Char → Bool
  | ['.', d1, d2, l] => d1.isDigit && d2.isDigit && l.isAlpha
  | _ => false

/-- Embedding of validate_azfp_ext (core.py lines 35-40): accepts iff the
extension fullmatches the pattern, otherwise raises ValueError with a
message naming the expected shape and the actual extension. -/
def validate_azfp_ext (test_ext : String) : Except PyErr Unit :=
  if azfpExtPattern test_ext.toList then Except.ok ()
  else Except.error (PyErr.valueError
    ("Expecting a file in the form \".XXY\" where XX is a number and Y is a letter but got "
      ++ test_ext))

/-- Character-wise lower-casing, modelling str.casefold, with which it
agrees on ASCII extensions. -/
def strLower (s : String) : String := String.mk (s.toList.map Char.toLower)

/-- Embedding of validate_ext (core.py lines 43-48): the returned closure
accepts iff the fixed expected extension equals the tested one up to case
folding. -/
def validate_ext (ext : String) : String → Except PyErr Unit := fun test_ext =>
  if strLower ext = strLower test_ext then Except.ok ()
  else Except.error (PyErr.valueError
    ("Expecting a " ++ ext ++ " file but got " ++ test_ext))

/-- Per-channel beam variables used by the range corrections. The time1
squeeze-and-drop in mod_Ex80 is coordinate bookkeeping that leaves the
per-channel value unchanged, so the embedded field holds that value. -/
structure Beam where
  transmit_duration_nominal : ℚ
  sample_interval : ℚ

/-- Vendor variables: transceiver_type per channel. -/
structure Vend where
  transceiver_type : List String

/-- Embedding of mod_Ex80 (core.py lines 51-55): Shift B,
sound_speed * transmit_duration_nominal / 4. -/
def mod_Ex80 (beam : Beam) (sound_speed : ℚ) : ℚ :=
  sound_speed * beam.transmit_duration_nominal / 4

/-- Embedding of mod_Ex60 (core.py lines 59-61): Shift A,
2 * sample_interval * sound_speed / 2. -/
def mod_Ex60 (beam : Beam) (sound_speed : ℚ) : ℚ :=
  2 * beam.sample_interval * sound_speed / 2

/-- Reading a Python local variable: a read before the first assignment
raises UnboundLocalError naming the variable. -/
def readLocal {α : Type} (name : String) (v : Option α) : Except PyErr α :=
  match v with
  | Option.none => Except.error (PyErr.unboundLocalError name)
  | Option.some x => Except.ok x

/-- Embedding of range_meter_Ex80 (core.py lines 63-69). Its first
statement reads the local range_meter on the right-hand side of the very
assignment that creates it, so no assignment precedes the read; were the
body to complete, it has no return statement. -/
def range_meter_Ex80 (beam : Beam) (vend : Vend) (sound_speed : ℚ) : Except PyErr Unit :=
  match readLocal "range_meter" (Option.none : Option (ℕ → ℚ)) with
  | Except.error e => Except.error e
  | Except.ok range_meter0 =>
      let range_meter1 : ℕ → ℚ := fun ch => range_meter0 ch - mod_Ex80 beam sound_speed
      let range_meter2 : ℕ → ℚ := fun ch =>
        if vend.transceiver_type.getD ch "" = "GPT" then
          range_meter1 ch - mod_Ex60 beam sound_speed
        else range_meter1 ch
      let _ := range_meter2
      Except.ok ()

/-- The EK80/ES80 registry entry for range_meter (core.py lines 243, 256):
a lambda that receives the uncorrected range but discards it and calls
range_meter_Ex80 without it. -/
def EK80_range_meter_entry (range_meter : ℕ → ℚ) (beam : Beam) (vend : Vend)
    (sound_speed : ℚ) : Except PyErr Unit :=
  let _ := range_meter
  range_meter_Ex80 beam vend sound_speed

/-- Warning text for a non-CW waveform on a narrowband-only model
(core.py lines 87-90, 106-109). -/
def narrowbandWaveformWarning : String :=
  "This sonar model transmits only narrowband signals (waveform_mode='CW'). Calibration will be in CW mode"

/-- Warning text for a non-power encode mode on a narrowband-only model
(core.py lines 92-96, 112-116). -/
def narrowbandEncodeWarning : String :=
  "This sonar model only record data as power or power/angle samples (encode_mode='power'). Calibration will be done on the power samples."

/-- Embedding of EK80_waveform_mode_check (core.py lines 71-73): declared
with two positional parameters, the second unused; checks the first
against None. -/
def EK80_waveform_mode_check : List PyVal → Except PyErr Unit
  | [waveform_mode, _encode_mode] =>
      if waveform_mode = PyVal.none then
        Except.error (PyErr.valueError "The waveform_mode must be specified for EK80 calibration")
      else Except.ok ()
  | _ => Except.error (PyErr.typeError "EK80_waveform_mode_check")

/-- Embedding of EK80_encode_mode_check (core.py lines 75-77): one
positional parameter, checked against None. -/
def EK80_encode_mode_check : List PyVal → Except PyErr Unit
  | [encode_mode] =>
      if encode_mode = PyVal.none then
        Except.error (PyErr.valueError "The encode_mode must be specified for EK80 calibration")
      else Except.ok ()
  | _ => Except.error (PyErr.typeError "EK80_encode_mode_check")

/-- Record of the delegated compatibility call with its exact arguments.
Modelled from the spec: check_input_args_combination lives in
echodata/simrad.py, which is not among the staged sources; the spec treats
it as an external compatibility check invoked with the supplied modes. -/
structure SimradComboCall where
  waveform_mode : PyVal
  encode_mode : PyVal
deriving DecidableEq

/-- The delegated external compatibility check, recorded with the exact
arguments the caller supplied (see SimradComboCall). -/
def check_input_args_combination (waveform_mode encode_mode : PyVal) :
    Except PyErr SimradComboCall :=
  Except.ok { waveform_mode := waveform_mode, encode_mode := encode_mode }

/-- Embedding of EK80_mode_checks (core.py lines 79-82). The source calls
EK80_waveform_mode_check with a single argument although that function
declares two positional parameters, so the call itself raises TypeError. -/
def EK80_mode_checks (waveform_mode encode_mode : PyVal) : Except PyErr SimradComboCall :=
  match EK80_waveform_mode_check [waveform_mode] with
  | Except.error e => Except.error e
  | Except.ok _ =>
    match EK80_encode_mode_check [encode_mode] with
    | Except.error e => Except.error e
    | Except.ok _ => check_input_args_combination waveform_mode encode_mode

/-- Embedding of EK60_waveform_mode_check (core.py lines 85-90): two
positional parameters, the second unused; warns when a waveform other
than CW is supplied. -/
def EK60_waveform_mode_check : List PyVal → Except PyErr (List String)
  | [waveform_mode, _encode_mode] =>
      Except.ok (if waveform_mode ≠ PyVal.none ∧ waveform_mode ≠ PyVal.str "CW" then
        [narrowbandWaveformWarning] else [])
  | _ => Except.error (PyErr.typeError "EK60_waveform_mode_check")

/-- Embedding of EK60_encode_mode_check (core.py lines 91-96): one
positional parameter; warns when an encode mode other than power is
supplied. -/
def EK60_encode_mode_check : List PyVal → Except PyErr (List String)
  | [encode_mode] =>
      Except.ok (if encode_mode ≠ PyVal.none ∧ encode_mode ≠ PyVal.str "power" then
        [narrowbandEncodeWarning] else [])
  | _ => Except.error (PyErr.typeError "EK60_encode_mode_check")

/-- Embedding of EK60_mode_checks (core.py lines 98-100). The source calls
EK60_waveform_mode_check with a single argument although that function
declares two positional parameters, so the call itself raises TypeError. -/
def EK60_mode_checks (waveform_mode encode_mode : PyVal) : Except PyErr (List String) :=
  match EK60_waveform_mode_check [waveform_mode] with
  | Except.error e => Except.error e
  | Except.ok w1 =>
    match EK60_encode_mode_check [encode_mode] with
    | Except.error e => Except.error e
    | Except.ok w2 => Except.ok (w1 ++ w2)

/-- Embedding of AZFP_waveform_mode_check (core.py lines 104-109): one
positional parameter, matching its call sites. -/
def AZFP_waveform_mode_check : List PyVal → Except PyErr (List String)
  | [waveform_mode] =>
      Except.ok (if waveform_mode ≠ PyVal.none ∧ waveform_mode ≠ PyVal.str "CW" then
        [narrowbandWaveformWarning] else [])
  | _ => Except.error (PyErr.typeError "AZFP_waveform_mode_check")

/-- Embedding of AZFP_encode_mode_check (core.py lines 111-116). -/
def AZFP_encode_mode_check : List PyVal → Except PyErr (List String)
  | [encode_mode] =>
      Except.ok (if encode_mode ≠ PyVal.none ∧ encode_mode ≠ PyVal.str "power" then
        [narrowbandEncodeWarning] else [])
  | _ => Except.error (PyErr.typeError "AZFP_encode_mode_check")

/-- Embedding of AZFP_mode_checks (core.py lines 118-120): both inner
checks are declared with one parameter and called with one argument. -/
def AZFP_mode_checks (waveform_mode encode_mode : PyVal) : Except PyErr (List String) :=
  match AZFP_waveform_mode_check [waveform_mode] with
  | Except.error e => Except.error e
  | Except.ok w1 =>
    match AZFP_encode_mode_check [encode_mode] with
    | Except.error e => Except.error e
    | Except.ok w2 => Except.ok (w1 ++ w2)

/-- Byte sizes of the backscatter variables of one beam group. -/
structure BeamGroupBytes where
  backscatter_r_nbytes : ℕ
  backscatter_i_nbytes : ℕ

/-- Final state of one run of a Python function body: the last value of
the local total_nbytes, and the value the function returns. -/
structure PyFunReturn where
  total_nbytes : Option ℕ
  ret : Option ℕ
deriving DecidableEq

/-- Embedding of EK80_backscatter_check (core.py lines 136-146): the two
if statements assign the local total_nbytes, but the body has no return
statement, so the function returns None. -/
def EK80_backscatter_check (echodata : String → BeamGroupBytes) (ed_beam_group : String)
    (waveform_mode encode_mode : PyVal) : PyFunReturn :=
  let beam := echodata ed_beam_group
  let total0 : Option ℕ := Option.none
  let total1 : Option ℕ :=
    if waveform_mode = PyVal.str "BB" ∨
        (waveform_mode = PyVal.str "CW" ∧ encode_mode = PyVal.str "complex") then
      Option.some (beam.backscatter_r_nbytes + beam.backscatter_i_nbytes)
    else total0
  let total2 : Option ℕ :=
    if waveform_mode = PyVal.str "CW" ∧ encode_mode = PyVal.str "power" then
      Option.some beam.backscatter_r_nbytes
    else total1
  { total_nbytes := total2, ret := Option.none }

/-- Embedding of EK60_backscatter_check (core.py lines 130-131): returns
the byte size of backscatter_r of Beam_group1. -/
def EK60_backscatter_check (echodata : String → BeamGroupBytes) (ed_beam_group : String)
    (waveform_mode encode_mode : PyVal) : PyFunReturn :=
  let _ := (ed_beam_group, waveform_mode, encode_mode)
  { total_nbytes := Option.none,
    ret := Option.some (echodata "Sonar/Beam_group1").backscatter_r_nbytes }

/-- A value stored in one slot of a SONAR_MODELS entry. -/
inductive SlotValue
  | pynone
  | pybool (b : Bool)
  | pyfunc (descr : String)
  | pyclass (descr : String)
deriving DecidableEq

/-- Embedding of the SONAR_MODELS registry (core.py lines 183-288) as an
association list of association lists: for every model key exactly the
slot keys written in the source literal, in order, with a SlotValue
describing the stored object. -/
def SONAR_MODELS : List (String × List (String × SlotValue)) :=
  [ ("AZFP",
      [ ("validate_ext", SlotValue.pyfunc "validate_azfp_ext"),
        ("xml", SlotValue.pybool true),
        ("accepts_bot", SlotValue.pybool false),
        ("accepts_idx", SlotValue.pybool false),
        ("parser", SlotValue.pyclass "ParseAZFP"),
        ("parsed2zarr", SlotValue.pynone),
        ("set_groups", SlotValue.pyclass "SetGroupsAZFP"),
        ("mode_checks", SlotValue.pyfunc "AZFP_mode_checks"),
        ("add_attrs_check", SlotValue.pyfunc "lambda_noop_4"),
        ("backscatter_check", SlotValue.pyfunc "AZFP_backscatter_check"),
        ("save_file_check", SlotValue.pyfunc "BASE_save_file_check") ]),
    ("AZFP6",
      [ ("validate_ext", SlotValue.pyfunc "validate_ext(.azfp)"),
        ("xml", SlotValue.pybool false),
        ("accepts_bot", SlotValue.pybool false),
        ("accepts_idx", SlotValue.pybool false),
        ("parser", SlotValue.pyclass "ParseAZFP6"),
        ("parsed2zarr", SlotValue.pynone),
        ("set_groups", SlotValue.pyclass "SetGroupsAZFP6"),
        ("mode_checks", SlotValue.pyfunc "lambda_noop_0"),
        ("add_attrs_check", SlotValue.pyfunc "lambda_noop_4"),
        ("backscatter_check", SlotValue.pyfunc "lambda_noop_4"),
        ("save_file_check", SlotValue.pyfunc "BASE_save_file_check") ]),
    ("EK60",
      [ ("validate_ext", SlotValue.pyfunc "validate_ext(.raw)"),
        ("xml", SlotValue.pybool false),
        ("accepts_bot", SlotValue.pybool true),
        ("accepts_idx", SlotValue.pybool true),
        ("parser", SlotValue.pyclass "ParseEK60"),
        ("set_groups", SlotValue.pyclass "SetGroupsEK60"),
        ("range_meter", SlotValue.pyfunc "lambda_mod_Ex60"),
        ("mode_checks", SlotValue.pyfunc "EK60_mode_checks"),
        ("add_attrs_check", SlotValue.pyfunc "lambda_noop_4"),
        ("backscatter_check", SlotValue.pyfunc "EK60_backscatter_check"),
        ("save_file_check", SlotValue.pyfunc "BASE_save_file_check") ]),
    ("ES70",
      [ ("validate_ext", SlotValue.pyfunc "validate_ext(.raw)"),
        ("xml", SlotValue.pybool false),
        ("accepts_bot", SlotValue.pybool false),
        ("accepts_idx", SlotValue.pybool false),
        ("parser", SlotValue.pyclass "ParseEK60"),
        ("set_groups", SlotValue.pyclass "SetGroupsEK60"),
        ("range_meter", SlotValue.pyfunc "lambda_mod_Ex60"),
        ("mode_checks", SlotValue.pyfunc "lambda_noop_0"),
        ("add_attrs_check", SlotValue.pyfunc "lambda_noop_4"),
        ("backscatter_check", SlotValue.pyfunc "lambda_noop_4"),
        ("save_file_check", SlotValue.pyfunc "BASE_save_file_check") ]),
    ("EK80",
      [ ("validate_ext", SlotValue.pyfunc "validate_ext(.raw)"),
        ("xml", SlotValue.pybool false),
        ("accepts_bot", SlotValue.pybool true),
        ("accepts_idx", SlotValue.pybool true),
        ("parser", SlotValue.pyclass "ParseEK80"),
        ("set_groups", SlotValue.pyclass "SetGroupsEK80"),
        ("range_meter", SlotValue.pyfunc "lambda_range_meter_Ex80"),
        ("mode_checks", SlotValue.pyfunc "EK80_mode_checks"),
        ("add_attrs_check", SlotValue.pyfunc "EK80_add_attrs_check"),
        ("backscatter_check", SlotValue.pyfunc "EK80_backscatter_check"),
        ("save_file_check", SlotValue.pyfunc "BASE_save_file_check") ]),
    ("ES80",
      [ ("validate_ext", SlotValue.pyfunc "validate_ext(.raw)"),
        ("xml", SlotValue.pybool false),
        ("accepts_bot", SlotValue.pybool false),
        ("accepts_idx", SlotValue.pybool false),
        ("parser", SlotValue.pyclass "ParseEK80"),
        ("set_groups", SlotValue.pyclass "SetGroupsEK80"),
        ("range_meter", SlotValue.pyfunc "lambda_range_meter_Ex80"),
        ("mode_checks", SlotValue.pyfunc "lambda_noop_0"),
        ("add_attrs_check", SlotValue.pyfunc "lambda_noop_4"),
        ("backscatter_check", SlotValue.pyfunc "lambda_noop_4"),
        ("save_file_check", SlotValue.pyfunc "BASE_save_file_check") ]),
    ("EA640",
      [ ("validate_ext", SlotValue.pyfunc "validate_ext(.raw)"),
        ("xml", SlotValue.pybool false),
        ("accepts_bot", SlotValue.pybool false),
        ("accepts_idx", SlotValue.pybool false),
        ("parser", SlotValue.pyclass "ParseEK80"),
        ("set_groups", SlotValue.pyclass "SetGroupsEK80"),
        ("range_meter", SlotValue.pyfunc "lambda_mod_Ex80"),
        ("mode_checks", SlotValue.pyfunc "lambda_noop_0"),
        ("add_attrs_check", SlotValue.pyfunc "lambda_noop_4"),
        ("backscatter_check", SlotValue.pyfunc "lambda_noop_4"),
        ("save_file_check", SlotValue.pyfunc "BASE_save_file_check") ]),
    ("AD2CP",
      [ ("validate_ext", SlotValue.pyfunc "validate_ext(.ad2cp)"),
        ("xml", SlotValue.pybool false),
        ("accepts_bot", SlotValue.pybool false),
        ("accepts_idx", SlotValue.pybool false),
        ("parser", SlotValue.pyclass "ParseAd2cp"),
        ("parsed2zarr", SlotValue.pynone),
        ("set_groups", SlotValue.pyclass "SetGroupsAd2cp"),
        ("mode_checks", SlotValue.pyfunc "lambda_noop_0"),
        ("add_attrs_check", SlotValue.pyfunc "lambda_noop_4"),
        ("backscatter_check", SlotValue.pyfunc "lambda_noop_4"),
        ("save_file_check", SlotValue.pyfunc "AD2CP_save_file_check") ]) ]

/-- The eight enumerated model keys. -/
def enumeratedModelKeys : List String :=
  ["AZFP", "AZFP6", "EK60", "ES70", "EK80", "ES80", "EA640", "AD2CP"]

/-- Whether a descriptor (one registry entry) carries a given slot key. -/
def hasSlot (descr : List (String × SlotValue)) (key : String) : Bool :=
  (plookup descr key).isSome

/-- The ten slot keys present in every entry of the source literal. -/
def alwaysPresentSlots : List String :=
  ["validate_ext", "xml", "accepts_bot", "accepts_idx", "parser", "set_groups",
   "mode_checks", "add_attrs_check", "backscatter_check", "save_file_check"]

/-- Raw AZFP echosounder data for one channel, as read through named
fields (process_azfp.py lines 20-32): vendor configuration values, the
nominal transmit duration, per-ping tilt cosines, and the number of range
bins. -/
structure EchoDataRaw where
  number_of_samples_per_average_bin : ℚ
  digitization_rate : ℚ
  lockout_index : ℚ
  transmit_duration_nominal : ℚ
  cos_tilt_mag : List ℚ
  num_range_bin : ℕ
  num_ping_time : ℕ
  backscatter_r : List ℚ

/-- The data handle passed to the calibration entry points: the raw record
plus the cached range profile (ed.range, None until computed). -/
structure EchoData where
  raw : EchoDataRaw
  range : Option (List ℚ)

/-- Mean of a list, as DataArray.mean over the time dimension. -/
def listMean (xs : List ℚ) : ℚ := xs.sum / xs.length

/-- One run of ProcessAZFP.calc_range: the returned value or the raised
exception, plus whether ds_vend.close() was executed. -/
structure CalcRangeRun where
  result : Except PyErr (List ℚ)
  vendClosed : Bool

/-- Embedding of ProcessAZFP.calc_range (process_azfp.py lines 15-44).
The vendor dataset ds_vend is opened by ed.get_vend_from_raw() at the top
of the body; ds_vend.close() is the second-to-last statement, so it runs
only when every earlier statement succeeds. The environment lookup
env_params of speed_of_sound_in_water can raise KeyError. bins_to_avg is
set to 1, and range_mod is arange(1, len(range_bin) - bins_to_avg + 2,
bins_to_avg), the 1-based bin indices 1..len. -/
def calc_range (ed : EchoDataRaw) (env_params : List (String × ℚ)) (tilt_corrected : Bool) :
    CalcRangeRun :=
  let range_samples := ed.number_of_samples_per_average_bin
  let pulse_length := ed.transmit_duration_nominal
  let bins_to_avg : ℚ := 1
  match plookup env_params "speed_of_sound_in_water" with
  | Option.none =>
      { result := Except.error (PyErr.keyError "speed_of_sound_in_water"),
        vendClosed := false }
  | Option.some sound_speed =>
      let dig_rate := ed.digitization_rate
      let lockout_index := ed.lockout_index
      let range_mod : List ℚ := (List.range ed.num_range_bin).map (fun i => (i : ℚ) + 1)
      let range_meter : List ℚ := range_mod.map (fun idx =>
        lockout_index / (2 * dig_rate) * sound_speed + sound_speed / 4 *
          (((2 * idx - 1) * range_samples * bins_to_avg - 1) / dig_rate + pulse_length))
      let range_meter : List ℚ :=
        if tilt_corrected then range_meter.map (fun r => listMean ed.cos_tilt_mag * r)
        else range_meter
      { result := Except.ok range_meter, vendClosed := true }

/-- Pointwise embedding of the Sv expression of ProcessAZFP.get_Sv
(process_azfp.py lines 57-63), with np.log10 as the real base-10
logarithm. -/
noncomputable def azfpSvValue (EL DS TVR VTX Sv_offset equivalent_beam_angle : ℝ)
    (absorption sound_speed pulse_length : ℝ) (backscatter r : ℝ) : ℝ :=
  EL - 2.5 / DS + backscatter / (26214 * DS) - TVR - 20 * Real.logb 10 VTX +
    20 * Real.logb 10 r + 2 * absorption * r -
    10 * Real.logb 10 (0.5 * sound_speed * pulse_length * equivalent_beam_angle) + Sv_offset

/-- Pointwise embedding of the Sp expression of ProcessAZFP.get_Sp
(process_azfp.py lines 89-92). -/
noncomputable def azfpSpValue (EL DS TVR VTX : ℝ) (absorption : ℝ) (backscatter r : ℝ) : ℝ :=
  EL - 2.5 / DS + backscatter / (26214 * DS) - TVR - 20 * Real.logb 10 VTX +
    40 * Real.logb 10 r + 2 * absorption * r

/-- Calibration parameters indexed by the required keys (EL, DS, TVR,
VTX, Sv_offset, equivalent_beam_angle). -/
structure CalParams where
  EL : ℝ
  DS : ℝ
  TVR : ℝ
  VTX : ℝ
  Sv_offset : ℝ
  equivalent_beam_angle : ℝ

/-- The in-memory calibrated result of one run of get_Sv or get_Sp: the
updated data handle, the calibrated samples, and the attached range on the
(ping_time, range_sample) grid. -/
structure CalRun where
  ed : EchoData
  samples : List ℝ
  attached_range : List (List ℚ)

/-- Modelled from the spec: ProcessBase restructuring of the cached range
(process_base.py is not among the staged sources). Per the spec, the
attached range field is built by broadcasting the channel/range-sample
profile across ping time. -/
def restructure_range (ed : EchoData) : List (List ℚ) :=
  (List.range ed.raw.num_ping_time).map (fun _ => ed.range.getD [])

/-- Embedding of ProcessAZFP.get_Sv (process_azfp.py lines 46-81) up to
the in-memory calibrated result (saving is delegated to an external
collaborator). When ed.range is None it is set to
self.calc_range(ed, env_params), the tilt_corrected argument omitted at
the call site so that its default False applies; the Sv expression is
then evaluated elementwise and the restructured range attached. -/
noncomputable def get_Sv (ed : EchoData) (env_params : List (String × ℚ)) (cal : CalParams) :
    Except PyErr CalRun :=
  match (match ed.range with
         | Option.none => (calc_range ed.raw env_params false).result
         | Option.some r => Except.ok r) with
  | Except.error e => Except.error e
  | Except.ok r =>
    let ed1 : EchoData := { ed with range := Option.some r }
    match plookup env_params "absorption" with
    | Option.none => Except.error (PyErr.keyError "absorption")
    | Option.some absorption =>
      match plookup env_params "speed_of_sound_in_water" with
      | Option.none => Except.error (PyErr.keyError "speed_of_sound_in_water")
      | Option.some sound_speed =>
        Except.ok
          { ed := ed1,
            samples := List.zipWith (fun backscatter rg =>
                azfpSvValue cal.EL cal.DS cal.TVR cal.VTX cal.Sv_offset
                  cal.equivalent_beam_angle (absorption : ℝ) (sound_speed : ℝ)
                  (ed.raw.transmit_duration_nominal : ℝ) (backscatter : ℝ) (rg : ℝ))
              ed.raw.backscatter_r r,
            attached_range := restructure_range ed1 }

/-- Embedding of ProcessAZFP.get_Sp (process_azfp.py lines 83-107) up to
the in-memory calibrated result. The range caching lines 86-87 are the
same as in get_Sv: calc_range is called without tilt_corrected, so the
default False applies. -/
noncomputable def get_Sp (ed : EchoData) (env_params : List (String × ℚ)) (cal : CalParams) :
    Except PyErr CalRun :=
  match (match ed.range with
         | Option.none => (calc_range ed.raw env_params false).result
         | Option.some r => Except.ok r) with
  | Except.error e => Except.error e
  | Except.ok r =>
    let ed1 : EchoData := { ed with range := Option.some r }
    match plookup env_params "absorption" with
    | Option.none => Except.error (PyErr.keyError "absorption")
    | Option.some absorption =>
      Except.ok
        { ed := ed1,
          samples := List.zipWith (fun backscatter rg =>
              azfpSpValue cal.EL cal.DS cal.TVR cal.VTX (absorption : ℝ)
                (backscatter : ℝ) (rg : ℝ))
            ed.raw.backscatter_r r,
          attached_range := restructure_range ed1 }

/-- Whether an Except value is a success. -/
def exceptOk {ε α : Type} : Except ε α → Bool
  | Except.ok _ => true
  | Except.error _ => false

/-- A concrete AZFP raw record: the spec scenario values (lockout_index
100, digitization_rate 20000, samples_per_bin 8273, pulse_length 0.0001,
3 range samples) with a nonempty tilt series and two pings. -/
def sampleRaw : EchoDataRaw where
  number_of_samples_per_average_bin := 8273
  digitization_rate := 20000
  lockout_index := 100
  transmit_duration_nominal := 0.0001
  cos_tilt_mag := [4/5, 3/5]
  num_range_bin := 3
  num_ping_time := 2
  backscatter_r := [1000]

/-- C1 counterexample: the AZFP registry entry has no range-correction
key at all, and the EK60 entry has no parsed2zarr key, so not every
capability field is present for every model key. -/
theorem C1_missing_capability_keys :
    (plookup SONAR_MODELS "AZFP").map (fun d => hasSlot d "range_meter") =
      Option.some false ∧
    (plookup SONAR_MODELS "EK60").map (fun d => hasSlot d "parsed2zarr") =
      Option.some false := by
  constructor <;> rfl

/-- C1 amended: every enumerated model key resolves to a descriptor that
carries the ten slots validate_ext, xml, accepts_bot, accepts_idx,
parser, set_groups, mode_checks, add_attrs_check, backscatter_check and
save_file_check; the range_meter slot is present exactly for EK60, ES70,
EK80, ES80 and EA640, and the parsed2zarr slot is present exactly for
AZFP, AZFP6 and AD2CP, where it is bound to None rather than to a no-op
function. -/
theorem C1_registry_slot_population :
    (enumeratedModelKeys.all (fun k =>
      match plookup SONAR_MODELS k with
      | Option.none => false
      | Option.some d =>
          alwaysPresentSlots.all (fun s => hasSlot d s) &&
          (hasSlot d "range_meter" ==
            (["EK60", "ES70", "EK80", "ES80", "EA640"].contains k)) &&
          (plookup d "parsed2zarr" ==
            (if ["AZFP", "AZFP6", "AD2CP"].contains k then Option.some SlotValue.pynone
             else Option.none)))) = true := by
  decide

/-- C2: EK80_mode_checks never reaches its None checks or the delegated
compatibility check: its first statement binds a single argument to the
two-parameter EK80_waveform_mode_check, so every call (including
waveform_mode None, and the pair BB/power) raises TypeError instead of
the missing-mode ValueError or a delegation. -/
theorem C2_EK80_mode_checks_always_type_error :
    ∀ waveform_mode encode_mode : PyVal,
      EK80_mode_checks waveform_mode encode_mode =
        Except.error (PyErr.typeError "EK80_waveform_mode_check") := by
  intro waveform_mode encode_mode
  rfl

/-- C3: the AZFP mode check indeed never raises and only accumulates the
narrowband warnings (for the pair BB/complex it warns twice and returns
normally), but the EK60 mode check raises TypeError on that same pair,
because EK60_waveform_mode_check is declared with two positional
parameters and called with one. -/
theorem C3_narrowband_mode_checks :
    (∀ waveform_mode encode_mode : PyVal, ∃ warnings : List String,
      AZFP_mode_checks waveform_mode encode_mode = Except.ok warnings) ∧
    AZFP_mode_checks (PyVal.str "BB") (PyVal.str "complex") =
      Except.ok [narrowbandWaveformWarning, narrowbandEncodeWarning] ∧
    EK60_mode_checks (PyVal.str "BB") (PyVal.str "complex") =
      Except.error (PyErr.typeError "EK60_waveform_mode_check") := by
  refine ⟨fun waveform_mode encode_mode => ⟨_, rfl⟩, ?_, ?_⟩ <;> rfl

/-- C4: the broadband range-correction function reads its local
range_meter before any assignment, so every call (through the registry
lambda or directly) raises UnboundLocalError instead of returning the
corrected range. -/
theorem C4_range_meter_Ex80_unbound_local :
    ∀ (range_meter : ℕ → ℚ) (beam : Beam) (vend : Vend) (sound_speed : ℚ),
      EK80_range_meter_entry range_meter beam vend sound_speed =
        Except.error (PyErr.unboundLocalError "range_meter") ∧
      range_meter_Ex80 beam vend sound_speed =
        Except.error (PyErr.unboundLocalError "range_meter") := by
  intro range_meter beam vend sound_speed
  exact ⟨rfl, rfl⟩

/-- C5: EK80_backscatter_check computes the claimed byte counts into its
local total_nbytes, but its body has no return statement, so the function
returns None for every input instead of a byte count. -/
theorem C5_EK80_backscatter_check_returns_none :
    ∀ (echodata : String → BeamGroupBytes) (g : String) (wm em : PyVal),
      (EK80_backscatter_check echodata g wm em).ret = Option.none ∧
      (EK80_backscatter_check echodata g (PyVal.str "CW") (PyVal.str "power")).total_nbytes =
        Option.some (echodata g).backscatter_r_nbytes ∧
      (EK80_backscatter_check echodata g (PyVal.str "BB") em).total_nbytes =
        Option.some ((echodata g).backscatter_r_nbytes + (echodata g).backscatter_i_nbytes) ∧
      (EK80_backscatter_check echodata g (PyVal.str "CW") (PyVal.str "complex")).total_nbytes =
        Option.some ((echodata g).backscatter_r_nbytes + (echodata g).backscatter_i_nbytes) := by
  intro echodata g wm em
  exact ⟨rfl, rfl, rfl, rfl⟩

/-- The untilted AZFP range profile: the calc_range formula at 1-based bin
indices with bins_to_avg = 1 and no tilt factor. -/
def untiltedProfile (raw : EchoDataRaw) (c : ℚ) : List ℚ :=
  (List.range raw.num_range_bin).map (fun i =>
    raw.lockout_index / (2 * raw.digitization_rate) * c + c / 4 *
      (((2 * ((i : ℚ) + 1) - 1) * raw.number_of_samples_per_average_bin * 1 - 1) /
          raw.digitization_rate + raw.transmit_duration_nominal))

/-- C6: without tilt correction, calc_range returns exactly the spec
formula at 1-based bin indices with bins_to_avg = 1, and on the scenario
values (lockout_index 100, digitization_rate 20000, speed 1500,
samples_per_bin 8273, pulse_length 0.0001, 3 samples) it yields
exactly 158.8875, 469.125 and 779.3625 meters, within the 0.001
tolerance. -/
theorem C6_azfp_range_formula :
    (∀ (raw : EchoDataRaw) (c : ℚ) (rest : List (String × ℚ)),
      (calc_range raw (("speed_of_sound_in_water", c) :: rest) false).result =
        Except.ok (untiltedProfile raw c)) ∧
    (calc_range sampleRaw [("speed_of_sound_in_water", 1500)] false).result =
      Except.ok [158.8875, 469.125, 779.3625] ∧
    |(158.8875 : ℚ) - 158.8875| ≤ 0.001 ∧ |(469.125 : ℚ) - 469.125| ≤ 0.001 ∧
    |(779.3625 : ℚ) - 779.3625| ≤ 0.001 := by
  refine ⟨?_, ?_, by norm_num, by norm_num, by norm_num⟩
  · intro raw c rest
    simp [calc_range, untiltedProfile, plookup, List.map_map, Function.comp]
  · show Except.ok _ = _
    norm_num [calc_range, plookup, sampleRaw, List.range_succ]

/-- The regex arm of azfpExtPattern characterised by the shape it was
written for: a dot, two digits and one letter. -/
theorem azfpExtPattern_iff (l : List Char) :
    azfpExtPattern l = true ↔
      ∃ d1 d2 c : Char, l = ['.', d1, d2, c] ∧ d1.isDigit = true ∧
        d2.isDigit = true ∧ c.isAlpha = true := by
  constructor
  · intro h
    unfold azfpExtPattern at h
    split at h
    · next d1 d2 c =>
        obtain ⟨⟨h1, h2⟩, h3⟩ :
            (d1.isDigit = true ∧ d2.isDigit = true) ∧ c.isAlpha = true := by
          simpa using h
        exact ⟨d1, d2, c, rfl, h1, h2, h3⟩
    · exact absurd h (by simp)
  · rintro ⟨d1, d2, c, rfl, h1, h2, h3⟩
    simp [azfpExtPattern, h1, h2, h3]

/-- C8: the pattern validator accepts an extension iff it is a dot, two
digits and one letter, the exact validator accepts iff the extension
equals the expected one up to case, and each rejection carries the
message naming the expected shape or extension and the actual one, as on
the spec examples. -/
theorem C8_extension_validators :
    (∀ s : String, validate_azfp_ext s = Except.ok () ↔
      ∃ d1 d2 l : Char, s.toList = ['.', d1, d2, l] ∧ d1.isDigit = true ∧
        d2.isDigit = true ∧ l.isAlpha = true) ∧
    (∀ ext test_ext : String, validate_ext ext test_ext = Except.ok () ↔
      strLower ext = strLower test_ext) ∧
    validate_azfp_ext ".01A" = Except.ok () ∧
    validate_azfp_ext ".99z" = Except.ok () ∧
    validate_azfp_ext ".ad2cp" = Except.error (PyErr.valueError
      "Expecting a file in the form \".XXY\" where XX is a number and Y is a letter but got .ad2cp") ∧
    validate_azfp_ext ".1A" = Except.error (PyErr.valueError
      "Expecting a file in the form \".XXY\" where XX is a number and Y is a letter but got .1A") ∧
    validate_azfp_ext ".A01" = Except.error (PyErr.valueError
      "Expecting a file in the form \".XXY\" where XX is a number and Y is a letter but got .A01") ∧
    validate_ext ".raw" ".raw" = Except.ok () ∧
    validate_ext ".raw" ".RAW" = Except.ok () ∧
    validate_ext ".raw" ".Raw" = Except.ok () ∧
    validate_ext ".raw" ".raww" = Except.error (PyErr.valueError
      "Expecting a .raw file but got .raww") ∧
    validate_ext ".raw" ".ra" = Except.error (PyErr.valueError
      "Expecting a .raw file but got .ra") := by
  refine ⟨?_, ?_, rfl, rfl, rfl, rfl, rfl, rfl, rfl, rfl, rfl, rfl⟩
  · intro s
    by_cases h : azfpExtPattern s.data = true
    · refine iff_of_true ?_ ((azfpExtPattern_iff s.data).mp h)
      simp [validate_azfp_ext, h]
    · refine iff_of_false ?_ (fun hx => h ((azfpExtPattern_iff s.data).mpr hx))
      simp [validate_azfp_ext, h]
  · intro ext test_ext
    by_cases h : strLower ext = strLower test_ext <;> simp [validate_ext, h]

/-- C9 counterexample: on the sample record with an environment mapping
missing speed_of_sound_in_water, calc_range raises KeyError and the
vendor dataset opened at the top of the body is never closed. -/
theorem C9_vend_not_closed_on_key_error :
    (calc_range sampleRaw [] false).result =
      Except.error (PyErr.keyError "speed_of_sound_in_water") ∧
    (calc_range sampleRaw [] false).vendClosed = false := by
  exact ⟨rfl, rfl⟩

/-- C9 amended: the vendor dataset is closed exactly on the successful
exit path of calc_range; on the failure path (the missing environment
key) it is not closed, since ds_vend.close() is a plain statement before
the return rather than a finally block. -/
theorem C9_vend_closed_iff_success :
    ∀ (ed : EchoDataRaw) (env : List (String × ℚ)) (tilt_corrected : Bool),
      (calc_range ed env tilt_corrected).vendClosed =
        exceptOk (calc_range ed env tilt_corrected).result := by
  intro ed env tilt_corrected
  unfold calc_range
  cases plookup env "speed_of_sound_in_water" <;> rfl

/-- C10: called on a handle whose cached range is absent, both
calibration entry points invoke calc_range with tilt correction at its
default False, cache the untilted profile (no mean cosine factor appears
in it) and attach its broadcast across ping time to the calibrated
result. -/
theorem C10_calibration_range_untilted :
    ∀ (raw : EchoDataRaw) (c a : ℚ) (rest : List (String × ℚ)) (cal : CalParams),
      (get_Sv { raw := raw, range := Option.none }
          (("speed_of_sound_in_water", c) :: ("absorption", a) :: rest) cal).map
        (fun run => (run.ed.range, run.attached_range)) =
      Except.ok (Option.some (untiltedProfile raw c),
        (List.range raw.num_ping_time).map (fun _ => untiltedProfile raw c)) ∧
      (get_Sp { raw := raw, range := Option.none }
          (("speed_of_sound_in_water", c) :: ("absorption", a) :: rest) cal).map
        (fun run => (run.ed.range, run.attached_range)) =
      Except.ok (Option.some (untiltedProfile raw c),
        (List.range raw.num_ping_time).map (fun _ => untiltedProfile raw c)) := by
  intro raw c a rest cal
  constructor <;>
    simp [get_Sv, get_Sp, calc_range, restructure_range, untiltedProfile, plookup,
      List.map_map, Function.comp, Except.map]

/-- Rational bounds on log(867/640), from the Taylor estimate of the
logarithm at x = -227/640 with six terms. -/
theorem log_bound_A :
    (0.3023 : ℝ) ≤ Real.log (867/640) ∧ Real.log (867/640) ≤ 0.3046 := by
  have hx : |(-227/640 : ℝ)| < 1 := by
    rw [abs_lt]; constructor <;> norm_num
  have h := Real.abs_log_sub_add_sum_range_le hx 6
  rw [show (1 : ℝ) - (-227/640) = 867/640 by norm_num] at h
  have habs : |(-227/640 : ℝ)| = 227/640 := by
    rw [abs_of_neg (by norm_num : (-227/640 : ℝ) < 0)]; norm_num
  rw [habs] at h
  have hsum : (∑ i ∈ Finset.range 6, (-227/640 : ℝ) ^ (i + 1) / (i + 1)) =
      -41711861815604429/137438953472000000 := by
    simp [Finset.sum_range_succ]
    norm_num
  rw [hsum, abs_le] at h
  constructor <;> nlinarith [h.1, h.2]

/-- Rational bounds on log(5/4), from the Taylor estimate of the
logarithm at x = -1/4 with four terms. -/
theorem log_bound_B :
    (0.2216 : ℝ) ≤ Real.log (5/4) ∧ Real.log (5/4) ≤ 0.2243 := by
  have hx : |(-1/4 : ℝ)| < 1 := by
    rw [abs_lt]; constructor <;> norm_num
  have h := Real.abs_log_sub_add_sum_range_le hx 4
  rw [show (1 : ℝ) - (-1/4) = 5/4 by norm_num] at h
  have habs : |(-1/4 : ℝ)| = 1/4 := by
    rw [abs_of_neg (by norm_num : (-1/4 : ℝ) < 0)]; norm_num
  rw [habs] at h
  have hsum : (∑ i ∈ Finset.range 4, (-1/4 : ℝ) ^ (i + 1) / (i + 1)) = -685/3072 := by
    simp [Finset.sum_range_succ]
    norm_num
  rw [hsum, abs_le] at h
  constructor <;> nlinarith [h.1, h.2]

/-- Factoring 867/40 as 2^4 times 867/640 inside the logarithm. -/
theorem log_867_40 : Real.log (867/40) = 4 * Real.log 2 + Real.log (867/640) := by
  rw [show (867/40 : ℝ) = 2 ^ 4 * (867/640) by norm_num,
    Real.log_mul (by norm_num) (by norm_num), Real.log_pow]
  push_cast
  ring

/-- Factoring 10 as 2^3 times 5/4 inside the logarithm. -/
theorem log_ten_split : Real.log 10 = 3 * Real.log 2 + Real.log (5/4) := by
  rw [show (10 : ℝ) = 2 ^ 3 * (5/4) by norm_num,
    Real.log_mul (by norm_num) (by norm_num), Real.log_pow]
  push_cast
  ring

/-- The two VTX and pulse logarithms of the Sv scenario combine into a
single logarithm of 867/40. -/
theorem sv_log_comb : 2 * Real.log 170 + Real.log (3/4000) = Real.log (867/40) := by
  rw [show (867/40 : ℝ) = 170 ^ 2 * (3/4000) by norm_num,
    Real.log_mul (by norm_num) (by norm_num), Real.log_pow]
  push_cast
  ring

/-- log 100 in terms of log 10. -/
theorem log_hundred : Real.log 100 = 2 * Real.log 10 := by
  rw [show (100 : ℝ) = 10 ^ 2 by norm_num, Real.log_pow]
  push_cast
  ring

/-- The Sv expression at the scenario values as a constant minus a single
base-10 logarithm. -/
theorem sv_scenario_eq :
    azfpSvValue 170 0.02 180 170 2 0.01 0.01 1500 0.0001 1000 100 =
      -1167737/13107 - 10 * (Real.log (867/40) / Real.log 10) := by
  have hL : Real.log 10 ≠ 0 := ne_of_gt (Real.log_pos (by norm_num))
  unfold azfpSvValue
  rw [← Real.log_div_log, ← Real.log_div_log, ← Real.log_div_log]
  rw [show (0.5 : ℝ) * 1500 * 0.0001 * 0.01 = 3/4000 by norm_num]
  have h100 : Real.log 100 / Real.log 10 = 2 := by
    rw [log_hundred]
    field_simp
  rw [h100, ← sv_log_comb]
  field_simp
  ring

/-- The Sv scenario value is within 0.05 dB of -102.45. -/
theorem sv_scenario_bound :
    |azfpSvValue 170 0.02 180 170 2 0.01 0.01 1500 0.0001 1000 100 + 102.45| ≤ 0.05 := by
  have hA := log_bound_A
  have hB := log_bound_B
  have h2a := Real.log_two_gt_d9
  have h2b := Real.log_two_lt_d9
  have hM : (3.0747 : ℝ) ≤ Real.log (867/40) ∧ Real.log (867/40) ≤ 3.0774 := by
    rw [log_867_40]
    constructor <;> linarith [hA.1, hA.2]
  have hL : (2.3009 : ℝ) ≤ Real.log 10 ∧ Real.log 10 ≤ 2.3039 := by
    rw [log_ten_split]
    constructor <;> linarith [hB.1, hB.2]
  have hL0 : (0 : ℝ) < Real.log 10 := lt_of_lt_of_le (by norm_num) hL.1
  have hq1 : Real.log (867/40) / Real.log 10 ≤ 1.3375 := by
    rw [div_le_iff₀ hL0]
    nlinarith [hM.2, hL.1]
  have hq0 : (1.3345 : ℝ) ≤ Real.log (867/40) / Real.log 10 := by
    rw [le_div_iff₀ hL0]
    nlinarith [hM.1, hL.2]
  rw [sv_scenario_eq, abs_le]
  constructor <;> linarith [hq0, hq1]

/-- C7: the Sv samples produced by get_Sv equal the documented formula
elementwise, and at the scenario values (EL 170, DS 0.02, TVR 180,
VTX 170, absorption 0.01, equivalent_beam_angle 0.01, Sv_offset 2,
backscatter_r 1000, speed 1500, pulse_length 0.0001, range 100) the
value is within 0.05 dB of -102.45. -/
theorem C7_Sv_formula :
    (∀ (raw : EchoDataRaw) (r : List ℚ) (c a : ℚ) (rest : List (String × ℚ))
        (cal : CalParams),
      (get_Sv { raw := raw, range := Option.some r }
          (("speed_of_sound_in_water", c) :: ("absorption", a) :: rest) cal).map
        (fun run => run.samples) =
      Except.ok (List.zipWith (fun b rg =>
          cal.EL - 2.5 / cal.DS + (b : ℝ) / (26214 * cal.DS) - cal.TVR -
            20 * Real.logb 10 cal.VTX + 20 * Real.logb 10 (rg : ℝ) +
            2 * (a : ℝ) * (rg : ℝ) -
            10 * Real.logb 10 (0.5 * (c : ℝ) * (raw.transmit_duration_nominal : ℝ) *
              cal.equivalent_beam_angle) + cal.Sv_offset)
        raw.backscatter_r r)) ∧
    |azfpSvValue 170 0.02 180 170 2 0.01 0.01 1500 0.0001 1000 100 + 102.45| ≤ 0.05 := by
  refine ⟨?_, sv_scenario_bound⟩
  intro raw r c a rest cal
  simp [get_Sv, plookup, azfpSvValue, Except.map]
